import Mathlib

/-!
Shallow embedding of the arm controller in src/src/robot_skills/arms.py.

Scalars that the Python code handles as floats (poses, offsets, timeouts)
are modelled as exact rationals: every claim here is about which arithmetic
operations are applied to which fields, never about rounding. Strings are
modelled as Lean strings; the substring test of Python str.find is spelled
out character by character. Calls into ROS (action clients, publishers,
wait_for_message) are modelled by passing the exogenous outcome of the
remote endpoint as an explicit argument and recording what was published
or submitted in the returned outcome structure.
-/

namespace RobotSkills

/-- Terminal status codes an actionlib endpoint can report for a goal
(actionlib_msgs/GoalStatus). The dispatch code only distinguishes
SUCCEEDED from everything else. -/
inductive GoalStatus where
  | pending
  | active
  | preempted
  | succeeded
  | aborted
  | rejected
  | lost
  deriving DecidableEq, Repr

/-- The per-side calibration offset loaded from
skills/arm/offset/<side>: six scalar fields. -/
structure CalibrationOffset where
  x : Rat
  y : Rat
  z : Rat
  roll : Rat
  pitch : Rat
  yaw : Rat
  deriving DecidableEq, Repr

/-- One pose block of a GraspPrecomputeGoal (either the absolute .goal
block or the relative .delta block): a frame id in its header plus six
pose scalars. -/
structure GraspGoalPart where
  frame_id : String
  x : Rat
  y : Rat
  z : Rat
  roll : Rat
  pitch : Rat
  yaw : Rat
  deriving DecidableEq, Repr

/-- A freshly constructed pose block: ROS message fields default to the
empty string and zero. -/
def GraspGoalPart.init : GraspGoalPart :=
  { frame_id := "", x := 0, y := 0, z := 0, roll := 0, pitch := 0, yaw := 0 }

/-- The wire goal of the grasp-precompute endpoint
(tue_manipulation/GraspPrecomputeGoal). -/
structure GraspPrecomputeGoal where
  goal : GraspGoalPart
  delta : GraspGoalPart
  PERFORM_PRE_GRASP : Bool
  FIRST_JOINT_POS_ONLY : Bool
  allowed_touch_objects : List String
  deriving DecidableEq, Repr

/-- A freshly constructed GraspPrecomputeGoal(): every field at its
message default. -/
def GraspPrecomputeGoal.init : GraspPrecomputeGoal :=
  { goal := GraspGoalPart.init, delta := GraspGoalPart.init,
    PERFORM_PRE_GRASP := false, FIRST_JOINT_POS_ONLY := false,
    allowed_touch_objects := [] }

/-- One colour channel of a marker. Python assigns color[0..2] into the
channel fields; send_goal passes the list [1, 0, 0] (numbers), while
send_delta_goal passes the string "red", whose items are characters, so
the channel value is either a number or a character. -/
inductive ColorChan where
  | num (v : Rat)
  | ch (c : Char)
  deriving DecidableEq, Repr

/-- The debug marker built by Arm._publish_marker
(visualization_msgs/Marker, the fields the code sets). -/
structure Marker where
  frame_id : String
  mtype : Nat
  x : Rat
  y : Rat
  z : Rat
  lifetime : Rat
  scale_x : Rat
  scale_y : Rat
  scale_z : Rat
  ns : String
  color_a : Rat
  color_r : ColorChan
  color_g : ColorChan
  color_b : ColorChan
  deriving DecidableEq, Repr

/-- One sub-report of a diagnostic message
(diagnostic_msgs/DiagnosticStatus): a name and a severity level. -/
structure DiagnosticStatus where
  name : String
  level : Int
  deriving DecidableEq, Repr

/-- A diagnostic message (diagnostic_msgs/DiagnosticArray): a list of
sub-reports. -/
structure DiagnosticArray where
  status : List DiagnosticStatus
  deriving DecidableEq, Repr

/-- One waypoint of a joint trajectory
(trajectory_msgs/JointTrajectoryPoint). -/
structure JointTrajectoryPoint where
  positions : List Rat
  time_from_start : Rat
  deriving DecidableEq, Repr

/-- trajectory_msgs/JointTrajectory: shared joint names plus the
waypoint sequence. -/
structure JointTrajectory where
  joint_names : List String
  points : List JointTrajectoryPoint
  deriving DecidableEq, Repr

/-- control_msgs/FollowJointTrajectoryGoal, the fields the code sets. -/
structure FollowJointTrajectoryGoal where
  trajectory : JointTrajectory
  goal_time_tolerance : Rat
  deriving DecidableEq, Repr

/-- The binary gripper direction of tue_msgs/GripperCommand. -/
inductive GripperDirection where
  | OPEN
  | CLOSE
  deriving DecidableEq, Repr

/-- tue_manipulation/GripperCommandGoal, the field the code sets. -/
structure GripperCommandGoal where
  direction : GripperDirection
  deriving DecidableEq, Repr

/-- The result of a call that may be a Python return value or a raised
exception. unboundLocalError stands for Python raising
UnboundLocalError when a `return` names a variable no branch assigned. -/
inductive PyResult where
  | ok (b : Bool)
  | unboundLocalError
  deriving DecidableEq, Repr

/-- The mutable and configured state of one Arm instance: the fields of
Arm.__init__ that the modelled methods read or write. -/
structure Arm where
  robot_name : String
  side : String
  occupied_by : Option String
  operational : Bool
  offset : CalibrationOffset
  joint_names : List String
  default_configurations : List (String × List Rat)
  default_trajectories : List (String × List (List Rat))
  ac_joint_traj_present : Bool
  deriving DecidableEq, Repr

/-- Python dict lookup on a parameter mapping modelled as an association
list: the value at the first matching key, if any. -/
def lookupParam {α : Type} (m : List (String × α)) (k : String) : Option α :=
  (m.find? (fun p => p.1 == k)).map (fun p => p.2)

/-- The first character list is a prefix of the second. -/
def isPrefixOfChars : List Char → List Char → Bool
  | [], _ => true
  | _ :: _, [] => false
  | a :: as, b :: bs => a == b && isPrefixOfChars as bs

/-- The first character list occurs as a contiguous substring of the
second: Python str.find(sub) returns a non-negative index exactly when
this holds. -/
def containsChars (sub : List Char) : List Char → Bool
  | [] => isPrefixOfChars sub []
  | c :: rest => isPrefixOfChars sub (c :: rest) || containsChars sub rest

/-- The frame-id qualification at the top of Arm.send_goal: when
frame_id.find(robot_name) < 0 the frame is prefixed with
"/" + robot_name, otherwise it is left as given. -/
def qualifyFrame (robot_name frame_id : String) : String :=
  if containsChars robot_name.data frame_id.data then frame_id
  else "/" ++ robot_name ++ frame_id

/-- Arm._publish_marker: builds a marker from the absolute .goal block
of the grasp-precompute goal (also when the goal being visualised is a
delta goal — the source always reads goal.goal) and publishes it. -/
def publish_marker (goal : GraspPrecomputeGoal)
    (color : ColorChan × ColorChan × ColorChan) (ns : String) : Marker :=
  { frame_id := goal.goal.frame_id, mtype := 2,
    x := goal.goal.x, y := goal.goal.y, z := goal.goal.z,
    lifetime := 20, scale_x := 1/20, scale_y := 1/20, scale_z := 1/20,
    ns := ns, color_a := 1,
    color_r := color.1, color_g := color.2.1, color_b := color.2.2 }

/-- Arm.cb_hardware_status: filter the sub-reports named <side>_arm; on
zero or multiple matches only log, on exactly one match set the
operational flag from the report level (2 is the operational code). -/
def Arm.cb_hardware_status (a : Arm) (msg : DiagnosticArray) : Arm :=
  let diags := msg.status.filter (fun diag => diag.name == a.side ++ "_arm")
  if diags.length = 0 then a
  else if diags.length ≠ 1 then a
  else
    let level := (diags.headD { name := "", level := 0 }).level
    if level ≠ 2 then { a with operational := false }
    else { a with operational := true }

/-- What a call to Arm.send_goal / Arm.send_delta_goal did: the boolean
return value, whether it blocked on the endpoint, the markers published
(in order) and the goals submitted to the grasp-precompute endpoint. -/
structure CartesianOutcome where
  success : Bool
  waited : Bool
  markers : List Marker
  sent : List GraspPrecomputeGoal
  deriving DecidableEq, Repr

/-- Arm.send_goal: qualify the frame, fill the absolute .goal block with
the requested pose, publish the "grasp_point" marker, add the
calibration offset to all six pose fields, publish the
"grasp_point_corrected" marker, then submit — fire-and-forget returning
True when timeout is 0, else blocking and mapping the terminal status
(an argument here: the status the endpoint reports) to a boolean. -/
def Arm.send_goal (a : Arm) (px py pz roll pitch yaw : Rat) (timeout : Rat)
    (pre_grasp : Bool) (frame_id : String) (first_joint_pos_only : Bool)
    (allowed_touch_objects : List String) (endpoint : GoalStatus) :
    CartesianOutcome :=
  let fid := qualifyFrame a.robot_name frame_id
  let g0 : GraspPrecomputeGoal :=
    { GraspPrecomputeGoal.init with
      goal := { frame_id := fid, x := px, y := py, z := pz,
                roll := roll, pitch := pitch, yaw := yaw },
      PERFORM_PRE_GRASP := pre_grasp,
      FIRST_JOINT_POS_ONLY := first_joint_pos_only,
      allowed_touch_objects := allowed_touch_objects }
  let m1 := publish_marker g0 (ColorChan.num 1, ColorChan.num 0, ColorChan.num 0)
      "grasp_point"
  let g1 : GraspPrecomputeGoal :=
    { g0 with
      goal := { g0.goal with
        x := g0.goal.x + a.offset.x, y := g0.goal.y + a.offset.y,
        z := g0.goal.z + a.offset.z, roll := g0.goal.roll + a.offset.roll,
        pitch := g0.goal.pitch + a.offset.pitch,
        yaw := g0.goal.yaw + a.offset.yaw } }
  let m2 := publish_marker g1 (ColorChan.num 0, ColorChan.num 1, ColorChan.num 0)
      "grasp_point_corrected"
  if timeout = 0 then
    { success := true, waited := false, markers := [m1, m2], sent := [g1] }
  else
    { success := endpoint == GoalStatus.succeeded, waited := true,
      markers := [m1, m2], sent := [g1] }

/-- Arm.send_delta_goal: fill the relative .delta block with the
requested pose and submit with the same timeout handling as send_goal.
The use_offset argument is accepted but never read by the source, so no
offset is ever added; the single marker is published with the string
"red" as its colour argument, whose indexed items are characters. -/
def Arm.send_delta_goal (a : Arm) (px py pz roll pitch yaw : Rat)
    (timeout : Rat) (pre_grasp : Bool) (frame_id : String)
    (use_offset : Bool) (first_joint_pos_only : Bool)
    (endpoint : GoalStatus) : CartesianOutcome :=
  let g : GraspPrecomputeGoal :=
    { GraspPrecomputeGoal.init with
      delta := { frame_id := frame_id, x := px, y := py, z := pz,
                 roll := roll, pitch := pitch, yaw := yaw },
      PERFORM_PRE_GRASP := pre_grasp,
      FIRST_JOINT_POS_ONLY := first_joint_pos_only }
  let m := publish_marker g (ColorChan.ch 'r', ColorChan.ch 'e', ColorChan.ch 'd')
      ""
  if timeout = 0 then
    { success := true, waited := false, markers := [m], sent := [g] }
  else
    { success := endpoint == GoalStatus.succeeded, waited := true,
      markers := [m], sent := [g] }

/-- What a call to Arm.send_gripper_goal did: the updated arm state, the
boolean return value, whether it blocked on the endpoint, and the goals
submitted to the gripper endpoint. -/
structure GripperOutcome where
  arm : Arm
  success : Bool
  waited : Bool
  sent : List GripperCommandGoal
  deriving DecidableEq, Repr

/-- Arm.send_gripper_goal: map the state string to a wire direction
(anything else returns False before any goal is sent), submit, then on
timeout 0 or None return True immediately (clearing occupied_by when
opening), else wait and clear occupied_by and return True only when the
endpoint reports SUCCEEDED. -/
def Arm.send_gripper_goal (a : Arm) (state : String) (timeout : Option Rat)
    (endpoint : GoalStatus) : GripperOutcome :=
  match (if state == "open" then some GripperDirection.OPEN
         else if state == "close" then some GripperDirection.CLOSE
         else none) with
  | none => { arm := a, success := false, waited := false, sent := [] }
  | some dir =>
    let goal : GripperCommandGoal := { direction := dir }
    if timeout = some 0 ∨ timeout = none then
      { arm := if state == "open" then { a with occupied_by := none } else a,
        success := true, waited := false, sent := [goal] }
    else
      if endpoint = GoalStatus.succeeded then
        { arm := if state == "open" then { a with occupied_by := none } else a,
          success := true, waited := true, sent := [goal] }
      else
        { arm := a, success := false, waited := true, sent := [goal] }

/-- What a call to Arm.handover_to_human / handover_to_robot did: the
topics it published the toggle to and waited on, the boolean return
value and whether the timeout path logged an error. The reply argument
of the modelled calls is the message, if any, that arrives on the
result topic within the deadline. -/
structure HandoverOutcome where
  toggle_topic : String
  result_topic : String
  success : Bool
  logged_error : Bool
  deriving DecidableEq, Repr

/-- Arm.handover_to_human: publish True on the robot2human toggle topic,
then wait for one message on the result topic; any message within the
deadline returns True, the timeout exception path logs and returns
False. -/
def Arm.handover_to_human (a : Arm) (timeout : Rat) (reply : Option Bool) :
    HandoverOutcome :=
  { toggle_topic :=
      "/" ++ a.robot_name ++ "/handoverdetector_" ++ a.side ++ "/toggle_robot2human",
    result_topic :=
      "/" ++ a.robot_name ++ "/handoverdetector_" ++ a.side ++ "/result",
    success := reply.isSome,
    logged_error := reply.isNone }

/-- Arm.handover_to_robot: identical to handover_to_human except that
the toggle goes to the human2robot topic. -/
def Arm.handover_to_robot (a : Arm) (timeout : Rat) (reply : Option Bool) :
    HandoverOutcome :=
  { toggle_topic :=
      "/" ++ a.robot_name ++ "/handoverdetector_" ++ a.side ++ "/toggle_human2robot",
    result_topic :=
      "/" ++ a.robot_name ++ "/handoverdetector_" ++ a.side ++ "/result",
    success := reply.isSome,
    logged_error := reply.isNone }

/-- What a call to the joint-trajectory methods did: the updated arm
state (the endpoint-present flag may be refreshed by the re-probe), the
goals submitted, how many per-waypoint joint-count mismatch warnings
were logged, and the Python-level result. -/
structure TrajOutcome where
  arm : Arm
  sent : List FollowJointTrajectoryGoal
  mismatchWarnings : Nat
  result : PyResult
  deriving DecidableEq, Repr

/-- Arm._send_joint_trajectory: re-probe the endpoint if it was absent
(reprobe_found is the exogenous probe outcome) and fail fast without
submitting if it is still absent; otherwise build one waypoint per
reference (logging a warning for each reference whose length differs
from the configured joint-name count, without excluding it), submit,
and — when timeout is nonzero — wait (wait_done is the exogenous wait
outcome) and return it. When timeout is zero the source skips the wait
and executes `return done` with `done` never assigned, raising
UnboundLocalError. -/
def Arm._send_joint_trajectory (a : Arm) (joints_references : List (List Rat))
    (timeout : Rat) (reprobe_found : Bool) (wait_done : Bool) : TrajOutcome :=
  let present := if a.ac_joint_traj_present then true else reprobe_found
  let a1 : Arm := { a with ac_joint_traj_present := present }
  if present = false then
    { arm := a1, sent := [], mismatchWarnings := 0, result := PyResult.ok false }
  else
    let ps := joints_references.map (fun jr =>
      { positions := jr, time_from_start := 0 : JointTrajectoryPoint })
    let warns := joints_references.countP
      (fun jr => jr.length != a.joint_names.length)
    let goal : FollowJointTrajectoryGoal :=
      { trajectory := { joint_names := a.joint_names, points := ps },
        goal_time_tolerance := timeout }
    if timeout ≠ 0 then
      { arm := a1, sent := [goal], mismatchWarnings := warns,
        result := PyResult.ok wait_done }
    else
      { arm := a1, sent := [goal], mismatchWarnings := warns,
        result := PyResult.unboundLocalError }

/-- Arm.send_joint_goal: look the configuration name up in
default_configurations; when present submit it as a one-point
trajectory with the default timeout of 5, otherwise log and return
False without submitting. -/
def Arm.send_joint_goal (a : Arm) (configuration : String)
    (reprobe_found wait_done : Bool) : TrajOutcome :=
  match lookupParam a.default_configurations configuration with
  | some conf => a._send_joint_trajectory [conf] 5 reprobe_found wait_done
  | none =>
    { arm := a, sent := [], mismatchWarnings := 0, result := PyResult.ok false }

/-- Arm.send_joint_trajectory: look the trajectory name up in
default_trajectories; when present submit it with the default timeout
of 5, otherwise log and return False without submitting. -/
def Arm.send_joint_trajectory (a : Arm) (configuration : String)
    (reprobe_found wait_done : Bool) : TrajOutcome :=
  match lookupParam a.default_trajectories configuration with
  | some traj => a._send_joint_trajectory traj 5 reprobe_found wait_done
  | none =>
    { arm := a, sent := [], mismatchWarnings := 0, result := PyResult.ok false }

/-- A concrete arm used to instantiate hypotheses at concrete inputs:
offsets and parameter maps as a left amigo arm could load them. -/
def armEx : Arm :=
  { robot_name := "amigo", side := "left",
    occupied_by := some "coke", operational := true,
    offset := { x := 1, y := 0, z := 0, roll := 0, pitch := 0, yaw := 0 },
    joint_names := ["shoulder_left", "elbow_left"],
    default_configurations := [("reset", [0, 0])],
    default_trajectories := [("wave", [[0, 0], [1, 1]])],
    ac_joint_traj_present := true }

/-! ## Helper lemmas about the substring test -/

/-- A list is a prefix of itself followed by anything. -/
theorem isPrefixOfChars_append (l t : List Char) :
    isPrefixOfChars l (l ++ t) = true := by
  induction l with
  | nil => rfl
  | cons a as ih => simp [isPrefixOfChars, ih]

/-- A list occurs as a substring of itself followed by anything. -/
theorem containsChars_append (sub t : List Char) :
    containsChars sub (sub ++ t) = true := by
  cases sub with
  | nil => cases t with
    | nil => rfl
    | cons c r => rfl
  | cons a as => simp [containsChars, isPrefixOfChars, isPrefixOfChars_append]

/-! ## The claims -/

/-- C1: for every pose and loaded calibration offset, send_goal builds a
wire goal whose six goal fields equal the input pose plus the offset
component-wise, and emits exactly two debug markers: the first
(namespace "grasp_point") at the pre-offset pose and the second
(namespace "grasp_point_corrected") at the post-offset pose, in that
order. -/
theorem send_goal_offset_and_markers (a : Arm) (px py pz roll pitch yaw : Rat)
    (timeout : Rat) (pre_grasp : Bool) (frame_id : String)
    (first_joint_pos_only : Bool) (ato : List String) (endpoint : GoalStatus) :
    ((a.send_goal px py pz roll pitch yaw timeout pre_grasp frame_id
        first_joint_pos_only ato endpoint).sent.map
        (fun g => (g.goal.x, g.goal.y, g.goal.z,
                   g.goal.roll, g.goal.pitch, g.goal.yaw))
      = [(px + a.offset.x, py + a.offset.y, pz + a.offset.z,
          roll + a.offset.roll, pitch + a.offset.pitch, yaw + a.offset.yaw)])
    ∧ ((a.send_goal px py pz roll pitch yaw timeout pre_grasp frame_id
        first_joint_pos_only ato endpoint).markers.map
        (fun m => (m.ns, m.x, m.y, m.z))
      = [("grasp_point", px, py, pz),
         ("grasp_point_corrected",
          px + a.offset.x, py + a.offset.y, pz + a.offset.z)]) := by
  unfold Arm.send_goal
  by_cases h : timeout = 0 <;> simp [h, publish_marker]

/-- C5: for every diagnostic report, if exactly one sub-report is named
<side>_arm then afterwards the operational flag is true exactly when
that sub-report's level is 2; with zero or multiple matches the flag
keeps its prior value. -/
theorem cb_hardware_status_operational (a : Arm) (msg : DiagnosticArray) :
    (a.cb_hardware_status msg).operational =
      (if (msg.status.filter (fun diag => diag.name == a.side ++ "_arm")).length = 1
       then (((msg.status.filter (fun diag => diag.name == a.side ++ "_arm")).headD
               { name := "", level := 0 }).level == 2)
       else a.operational) := by
  rcases h : msg.status.filter (fun diag => diag.name == a.side ++ "_arm") with
    _ | ⟨d, _ | ⟨d2, rest⟩⟩
  · simp [Arm.cb_hardware_status, h]
  · by_cases hl : d.level = 2 <;>
      simp [Arm.cb_hardware_status, h, hl, beq_eq_false_iff_ne]
  · simp [Arm.cb_hardware_status, h]

/-- C6: frame ids that do not contain the robot name get exactly one
"/<robot_name>" segment prepended, frame ids already containing it are
left unchanged, and the qualification is idempotent. -/
theorem frame_prefix_idempotent (robot frame : String) :
    (containsChars robot.data frame.data = false →
        qualifyFrame robot frame = "/" ++ robot ++ frame)
    ∧ (containsChars robot.data frame.data = true →
        qualifyFrame robot frame = frame)
    ∧ qualifyFrame robot (qualifyFrame robot frame) = qualifyFrame robot frame := by
  refine ⟨fun h => by simp [qualifyFrame, h], fun h => by simp [qualifyFrame, h], ?_⟩
  by_cases h : containsChars robot.data frame.data
  · simp [qualifyFrame, h]
  · have hc : containsChars robot.data ('/' :: (robot.data ++ frame.data)) = true := by
      simp [containsChars, containsChars_append]
    simp [qualifyFrame, h, hc]

/-- C2: for gripper commands, the fire-and-forget path (timeout 0, and
the None the source tests alongside it) returns success without waiting
and clears occupied_by exactly when opening; the blocking path clears
occupied_by exactly when opening and the endpoint reports SUCCEEDED, a
non-succeeded terminal status returns failure with occupied_by
unchanged, and a close command never modifies occupied_by. -/
theorem send_gripper_goal_occupancy (a : Arm) (state : String)
    (timeout : Option Rat) (endpoint : GoalStatus)
    (hstate : state = "open" ∨ state = "close") :
    ((timeout = some 0 ∨ timeout = none) →
        (a.send_gripper_goal state timeout endpoint).success = true
        ∧ (a.send_gripper_goal state timeout endpoint).waited = false
        ∧ (a.send_gripper_goal state timeout endpoint).arm.occupied_by
            = (if state = "open" then none else a.occupied_by))
    ∧ (¬(timeout = some 0 ∨ timeout = none) →
        (a.send_gripper_goal state timeout endpoint).success
            = (endpoint == GoalStatus.succeeded)
        ∧ (a.send_gripper_goal state timeout endpoint).arm.occupied_by
            = (if state = "open" ∧ endpoint = GoalStatus.succeeded then none
               else a.occupied_by))
    ∧ (state = "close" →
        (a.send_gripper_goal state timeout endpoint).arm.occupied_by
            = a.occupied_by) := by
  rcases hstate with rfl | rfl <;>
    by_cases hto : timeout = some 0 ∨ timeout = none <;>
    by_cases he : endpoint = GoalStatus.succeeded <;>
    simp_all [Arm.send_gripper_goal, beq_eq_false_iff_ne]

/-- Witness for C2: a concrete fire-and-forget open succeeds without
waiting and empties the gripper occupancy of a concrete arm. -/
theorem send_gripper_goal_occupancy_witness :
    (armEx.send_gripper_goal "open" (some 0) GoalStatus.aborted).success = true
    ∧ (armEx.send_gripper_goal "open" (some 0) GoalStatus.aborted).waited = false
    ∧ (armEx.send_gripper_goal "open" (some 0) GoalStatus.aborted).arm.occupied_by
        = none := by
  have h := send_gripper_goal_occupancy armEx "open" (some 0) GoalStatus.aborted
      (Or.inl rfl)
  have h1 := h.1 (Or.inl rfl)
  exact ⟨h1.1, h1.2.1, by simpa using h1.2.2⟩

/-- Counterexample to C3 as stated: with use_offset set and a nonzero
loaded offset, the submitted delta field does not equal the input plus
the offset — the flag is accepted but never read, so no offset is ever
applied. -/
theorem send_delta_goal_use_offset_cex :
    ((armEx.send_delta_goal 0 0 0 0 0 0 30 false "/base_link" true false
        GoalStatus.succeeded).sent.map (fun g => g.delta.x))
      ≠ [0 + armEx.offset.x] := by
  norm_num [Arm.send_delta_goal, armEx]

/-- C3 amended: send_delta_goal targets the delta fields (the absolute
goal block stays at its message defaults), and the delta fields always
equal the input values exactly — the calibration offset is never added,
whether or not use_offset is set. -/
theorem send_delta_goal_fields (a : Arm) (px py pz roll pitch yaw : Rat)
    (timeout : Rat) (pre_grasp : Bool) (frame_id : String)
    (use_offset : Bool) (first_joint_pos_only : Bool) (endpoint : GoalStatus) :
    ((a.send_delta_goal px py pz roll pitch yaw timeout pre_grasp frame_id
        use_offset first_joint_pos_only endpoint).sent.map
        (fun g => (g.delta.frame_id, g.delta.x, g.delta.y, g.delta.z,
                   g.delta.roll, g.delta.pitch, g.delta.yaw))
      = [(frame_id, px, py, pz, roll, pitch, yaw)])
    ∧ ((a.send_delta_goal px py pz roll pitch yaw timeout pre_grasp frame_id
        use_offset first_joint_pos_only endpoint).sent.map
        (fun g => g.goal)
      = [GraspGoalPart.init]) := by
  unfold Arm.send_delta_goal
  by_cases h : timeout = 0 <;> simp [h, GraspPrecomputeGoal.init]

/-- C4: with a zero timeout, send_goal and send_delta_goal submit
asynchronously and return success without waiting; the joint-trajectory
path instead reaches `return done` with `done` never assigned, so the
modelled call yields UnboundLocalError rather than success — the
evaluation backing the code_bug record. -/
theorem zero_timeout_dispatch (a : Arm) (px py pz roll pitch yaw : Rat)
    (pre_grasp : Bool) (frame_id : String) (uo fjpo : Bool)
    (ato : List String) (endpoint : GoalStatus)
    (refs : List (List Rat)) (rp wd : Bool) :
    ((a.send_goal px py pz roll pitch yaw 0 pre_grasp frame_id fjpo ato
        endpoint).success = true
      ∧ (a.send_goal px py pz roll pitch yaw 0 pre_grasp frame_id fjpo ato
        endpoint).waited = false)
    ∧ ((a.send_delta_goal px py pz roll pitch yaw 0 pre_grasp frame_id uo fjpo
        endpoint).success = true
      ∧ (a.send_delta_goal px py pz roll pitch yaw 0 pre_grasp frame_id uo fjpo
        endpoint).waited = false)
    ∧ (a.ac_joint_traj_present = true →
        (a._send_joint_trajectory refs 0 rp wd).result
          = PyResult.unboundLocalError) := by
  refine ⟨⟨?_, ?_⟩, ⟨?_, ?_⟩, fun hp => ?_⟩ <;>
    simp [Arm.send_goal, Arm.send_delta_goal, Arm._send_joint_trajectory, *]

/-- C7: a joint-trajectory submission containing a waypoint whose
joint-value count differs from the configured joint-name count still
builds the goal with every waypoint, logs at least one mismatch
warning, and submits to the endpoint — the mismatch never rejects or
skips the submission. -/
theorem joint_trajectory_mismatch_still_submits (a : Arm)
    (refs : List (List Rat)) (timeout : Rat) (rp wd : Bool)
    (hpresent : a.ac_joint_traj_present = true)
    (hmismatch : ∃ jr ∈ refs, jr.length ≠ a.joint_names.length) :
    (a._send_joint_trajectory refs timeout rp wd).sent.map
        (fun g => g.trajectory.points.map (fun p => p.positions)) = [refs]
    ∧ 1 ≤ (a._send_joint_trajectory refs timeout rp wd).mismatchWarnings := by
  obtain ⟨jr, hmem, hne⟩ := hmismatch
  have hcount : 0 < refs.countP (fun jr => jr.length != a.joint_names.length) :=
    List.countP_pos_iff.mpr ⟨jr, hmem, by simpa using hne⟩
  unfold Arm._send_joint_trajectory
  by_cases ht : timeout = 0 <;>
    simp [hpresent, ht, Function.comp_def, List.map_id', hcount] <;>
    exact ⟨jr, hmem, hne⟩

/-- Witness for C7: a concrete one-waypoint reference of the wrong
length is still submitted by a concrete arm with two joints, and one
warning is counted. -/
theorem joint_trajectory_mismatch_witness :
    (armEx._send_joint_trajectory [[0]] 5 false true).sent.map
        (fun g => g.trajectory.points.map (fun p => p.positions)) = [[[0]]]
    ∧ 1 ≤ (armEx._send_joint_trajectory [[0]] 5 false true).mismatchWarnings := by
  have h := joint_trajectory_mismatch_still_submits armEx [[(0 : Rat)]] 5
      false true rfl ⟨[0], by simp, by simp [armEx]⟩
  exact h

/-- C8: with a positive timeout, both handover calls publish the toggle,
wait on the side-qualified result topic, return success exactly when
some reply (whatever its payload) arrives within the deadline, and log
an error exactly when none does. -/
theorem handover_reply_within_deadline (a : Arm) (timeout : Rat)
    (reply : Option Bool) (hpos : 0 < timeout) :
    ((a.handover_to_human timeout reply).success = reply.isSome
      ∧ (a.handover_to_human timeout reply).logged_error = reply.isNone
      ∧ (a.handover_to_human timeout reply).result_topic
          = "/" ++ a.robot_name ++ "/handoverdetector_" ++ a.side ++ "/result")
    ∧ ((a.handover_to_robot timeout reply).success = reply.isSome
      ∧ (a.handover_to_robot timeout reply).logged_error = reply.isNone
      ∧ (a.handover_to_robot timeout reply).result_topic
          = "/" ++ a.robot_name ++ "/handoverdetector_" ++ a.side ++ "/result") :=
  ⟨⟨rfl, rfl, rfl⟩, ⟨rfl, rfl, rfl⟩⟩

/-- Witness for C8: concretely, no reply within the deadline fails the
human handover and a reply (payload False included) succeeds the robot
handover. -/
theorem handover_reply_witness :
    (armEx.handover_to_human 1 none).success = false
    ∧ (armEx.handover_to_human 1 none).logged_error = true
    ∧ (armEx.handover_to_robot 1 (some false)).success = true := by
  have h1 := handover_reply_within_deadline armEx 1 none (by norm_num)
  have h2 := handover_reply_within_deadline armEx 1 (some false) (by norm_num)
  exact ⟨by simpa using h1.1.1, by simpa using h1.1.2.1, by simpa using h2.2.1⟩

/-- C9: a gripper state other than "open" or "close" returns failure
before any goal reaches the endpoint, leaves the whole arm state (its
occupancy included) unchanged, and never waits, whatever the timeout. -/
theorem gripper_invalid_state_rejected (a : Arm) (state : String)
    (timeout : Option Rat) (endpoint : GoalStatus)
    (h1 : state ≠ "open") (h2 : state ≠ "close") :
    (a.send_gripper_goal state timeout endpoint).success = false
    ∧ (a.send_gripper_goal state timeout endpoint).sent = []
    ∧ (a.send_gripper_goal state timeout endpoint).arm = a
    ∧ (a.send_gripper_goal state timeout endpoint).waited = false := by
  have e1 : (state == "open") = false := beq_eq_false_iff_ne.mpr h1
  have e2 : (state == "close") = false := beq_eq_false_iff_ne.mpr h2
  simp [Arm.send_gripper_goal, e1, e2]

/-- Witness for C9: the concrete state "banana" is rejected without any
submission and without touching a concrete arm. -/
theorem gripper_invalid_state_witness :
    (armEx.send_gripper_goal "banana" (some 0) GoalStatus.succeeded).success = false
    ∧ (armEx.send_gripper_goal "banana" (some 0) GoalStatus.succeeded).sent = []
    ∧ (armEx.send_gripper_goal "banana" (some 0) GoalStatus.succeeded).arm = armEx
    ∧ (armEx.send_gripper_goal "banana" (some 0) GoalStatus.succeeded).waited
        = false := by
  have h := gripper_invalid_state_rejected armEx "banana" (some 0)
      GoalStatus.succeeded (by decide) (by decide)
  exact h

/-- C10: a configuration name absent from default_configurations makes
send_joint_goal return failure without submitting any trajectory, and a
name absent from default_trajectories makes send_joint_trajectory do
the same. -/
theorem named_goal_missing_name_fails (a : Arm) (c₁ c₂ : String)
    (rp wd : Bool)
    (h1 : lookupParam a.default_configurations c₁ = none)
    (h2 : lookupParam a.default_trajectories c₂ = none) :
    (a.send_joint_goal c₁ rp wd).sent = []
    ∧ (a.send_joint_goal c₁ rp wd).result = PyResult.ok false
    ∧ (a.send_joint_trajectory c₂ rp wd).sent = []
    ∧ (a.send_joint_trajectory c₂ rp wd).result = PyResult.ok false := by
  simp [Arm.send_joint_goal, Arm.send_joint_trajectory, h1, h2]

/-- Witness for C10: the concrete name "wave_hello" is in neither
parameter map of a concrete arm, and both calls fail without
submitting. -/
theorem named_goal_missing_name_witness :
    (armEx.send_joint_goal "wave_hello" false true).sent = []
    ∧ (armEx.send_joint_goal "wave_hello" false true).result = PyResult.ok false
    ∧ (armEx.send_joint_trajectory "wave_hello" false true).sent = []
    ∧ (armEx.send_joint_trajectory "wave_hello" false true).result
        = PyResult.ok false := by
  have h := named_goal_missing_name_fails armEx "wave_hello" "wave_hello"
      false true (by decide) (by decide)
  exact h

end RobotSkills
